import Mathlib

/-!
Shallow embedding of the Duels+ launcher frontend (duelsplus/launcher-tauri):
the proxy launch-button view-state machine, the proxy-error dialog, the
settings mirror, the log buffer/filter, the onboarding flow and the config
bridge, translated from the TypeScript sources under `src/`.
-/

namespace Launcher

/-- `ProxyState` union type from `src/components/proxy/launch-button.tsx`. -/
inductive ProxyState
  | unknown
  | running
  | checking
  | downloading
  | error
  | stopping
  | stopped
  deriving DecidableEq, Repr

/-- `ProxyStatusEvent` union type: payloads of the `updater:status` event.
The `downloading` variant carries a version string. -/
inductive ProxyStatusEvent
  | checking
  | downloading (version : String)
  | launching
  | launched
  | error
  deriving DecidableEq, Repr

/-- `DownloadProgress` record: payload of the `updater:progress` event. -/
structure DownloadProgress where
  downloaded : Nat
  total : Nat
  speed : Nat
  deriving DecidableEq, Repr

/-- Severity field of `ProxyError` (`src/types/proxy.ts`). -/
inductive Severity
  | info
  | warning
  | error
  | critical
  deriving DecidableEq, Repr

/-- Category field of `ProxyError` (`src/types/proxy.ts`). -/
inductive ErrorCategory
  | network
  | authentication
  | hypixel
  | proxy
  | api
  | unknown
  deriving DecidableEq, Repr

/-- `ProxyError` record from `src/types/proxy.ts`. -/
structure ProxyError where
  code : String
  title : String
  message : String
  suggestion : String
  severity : Severity
  category : ErrorCategory
  originalMessage : String
  context : Option String
  timestamp : Nat
  deriving DecidableEq, Repr

/-- The React state of the `LaunchButton` component that the event handlers
mutate: `state`, `progress`, `busy`, `statusText`, `proxyError`, plus the
`activeTab` value from the `useTabs` store that the `launched` branch reads
and toggles. -/
structure ButtonState where
  state : ProxyState
  progress : Option DownloadProgress
  busy : Bool
  statusText : Option String
  proxyError : Option ProxyError
  activeTab : String
  deriving DecidableEq, Repr

/-- The `updater:status` listener of `LaunchButton` (launch-button.tsx,
lines 90-125).  `openLogsOnLaunch` is the `config.get()` value consulted in
the `launched` branch; that branch calls `toggleTab("logs")` when the flag
is set and the active tab is not already `"logs"` (modelled as setting
`activeTab` to `"logs"`; `toggleTab` switches to the named tab).  Note the
`error` branch does not touch `progress`, and the `launching` status has no
branch at all. -/
def handleStatus (openLogsOnLaunch : Bool) (s : ButtonState) :
    ProxyStatusEvent → ButtonState
  | .checking =>
      { s with state := .checking, progress := none }
  | .downloading _ =>
      { s with state := .downloading, statusText := some "Downloading",
               progress := none }
  | .launching => s
  | .launched =>
      { s with activeTab :=
                 if openLogsOnLaunch ∧ s.activeTab ≠ "logs" then "logs"
                 else s.activeTab,
               state := .running, busy := false, progress := none }
  | .error =>
      { s with state := .error, statusText := some "Error", busy := false }

/-- The `updater:progress` listener (launch-button.tsx, lines 127-132):
`setProgress(event.payload)`, with no check of the current state. -/
def handleProgress (s : ButtonState) (p : DownloadProgress) : ButtonState :=
  { s with progress := some p }

/-- The `proxy-error` listener (launch-button.tsx, lines 140-151): the
payload is stored (opening the dialog) only when its severity is `error`
or `critical`. -/
def handleProxyErrorEvent (s : ButtonState) (e : ProxyError) : ButtonState :=
  if e.severity = .error ∨ e.severity = .critical then
    { s with proxyError := some e }
  else s

/-- Folding the `updater:status` listener over a sequence of events. -/
def runStatus (openLogsOnLaunch : Bool) (s : ButtonState)
    (events : List ProxyStatusEvent) : ButtonState :=
  events.foldl (handleStatus openLogsOnLaunch) s

/-- The progress-dependent parts of the rendered output of `LaunchButton`:
the speed/percent readout inside the button label is produced only in the
`state === "downloading"` branch, while the pulsing border
(`{progress && ...}` inside `AnimatePresence`) is shown whenever
`progress` is non-null, in every state. -/
structure RenderedProgress where
  showsBorder : Bool
  downloadReadout : Option DownloadProgress
  deriving DecidableEq, Repr

/-- Rendering of the progress data from the component state
(launch-button.tsx, lines 190-198 and 219-236 and 308-319). -/
def renderProgress (s : ButtonState) : RenderedProgress :=
  { showsBorder := s.progress.isSome
    downloadReadout := if s.state = .downloading then s.progress else none }

/-- The mount-time status poll (launch-button.tsx, lines 82-88):
`get_proxy_status` resolves to a boolean or rejects; `.then` maps `true`
to `running` and `false` to `stopped`, `.catch` sets `stopped`. -/
def mountPoll : Except Unit Bool → ProxyState
  | .ok true => .running
  | .ok false => .stopped
  | .error _ => .stopped

/-- Outcome of an awaited backend command: resolved or threw. -/
inductive CallOutcome
  | ok
  | threw
  deriving DecidableEq, Repr

/-- The state of `LaunchButton` right after `handle()` takes the stop
branch (launch-button.tsx lines 153-156 and 167-169): `busy` set,
`statusText` cleared, state set to `stopping`, before `stop_proxy`
resolves. -/
def stopIntermediate (s : ButtonState) : ButtonState :=
  { s with busy := true, statusText := none, state := .stopping }

/-- The state of `LaunchButton` once the awaited `stop_proxy` call settles
(launch-button.tsx lines 169-184): on resolution the code sets `stopped`,
clears `busy` and `statusText`; if the call throws, the `catch` block logs
the error, clears `busy`, sets the state to `error` and the status text to
"Error". -/
def stopFinal (s : ButtonState) : CallOutcome → ButtonState
  | .ok =>
      { stopIntermediate s with state := .stopped, busy := false,
                                statusText := none }
  | .threw =>
      { stopIntermediate s with busy := false, state := .error,
                                statusText := some "Error" }

/-- The projection of the `updater:status` handler onto the displayed
`ProxyState`: the next state depends only on the previous state and the
event, not on `progress`, `busy`, the config flag or the active tab. -/
def stateStep (st : ProxyState) : ProxyStatusEvent → ProxyState
  | .checking => .checking
  | .downloading _ => .downloading
  | .launching => st
  | .launched => .running
  | .error => .error

theorem handleStatus_state (cfg : Bool) (s : ButtonState)
    (e : ProxyStatusEvent) :
    (handleStatus cfg s e).state = stateStep s.state e := by
  cases e <;> rfl

theorem runStatus_state (cfg : Bool) (s : ButtonState)
    (events : List ProxyStatusEvent) :
    (runStatus cfg s events).state = events.foldl stateStep s.state := by
  induction events generalizing s with
  | nil => rfl
  | cons e es ih =>
      simpa [runStatus, List.foldl_cons, handleStatus_state] using
        ih (handleStatus cfg s e)

/-- Rendering of the `ProxyErrorDialog` (dialogs/proxy-error.tsx): it
returns `null` when `error` is null, and otherwise shows a dialog whose
body renders `error.message` and `error.suggestion` verbatim.  The dialog
`open` prop in `LaunchButton` is `!!proxyError`. -/
def renderDialog : Option ProxyError → Option (String × String)
  | none => none
  | some e => some (e.message, e.suggestion)

/-- A launch button freshly mounted whose poll reported a stopped proxy. -/
def initStopped : ButtonState :=
  { state := .stopped, progress := none, busy := false, statusText := none,
    proxyError := none, activeTab := "home" }

/-- A launch button whose poll reported a running proxy. -/
def initRunning : ButtonState :=
  { initStopped with state := .running }

/-- A concrete `updater:progress` payload. -/
def sampleProgress : DownloadProgress :=
  { downloaded := 1000, total := 10000, speed := 500 }

/-- A concrete critical `proxy-error` payload. -/
def sampleCritical : ProxyError :=
  { code := "E1", title := "Crash", message := "the proxy died",
    suggestion := "restart it", severity := .critical, category := .proxy,
    originalMessage := "boom", context := none, timestamp := 0 }

/-- A concrete warning-severity `proxy-error` payload. -/
def sampleWarning : ProxyError :=
  { sampleCritical with code := "W1", severity := .warning }

/-- C1 counterexample: from the stopped state, the event sequence
`status downloading`, `progress`, `status error` leaves `progress`
non-null while the state is `error` (the `error` branch never clears it),
and a single progress event received in the stopped state changes the
rendered output (the pulsing border appears). -/
theorem progress_invariant_counterexample :
    (handleStatus false
        (handleProgress (handleStatus false initStopped (.downloading "1.0"))
          sampleProgress) .error).state ≠ ProxyState.downloading ∧
    (handleStatus false
        (handleProgress (handleStatus false initStopped (.downloading "1.0"))
          sampleProgress) .error).progress = some sampleProgress ∧
    renderProgress (handleProgress initStopped sampleProgress) ≠
      renderProgress initStopped := by
  decide

/-- C1 (amended): a progress event stores its payload unconditionally in
every state; the `checking`, `downloading` and `launched` status
transitions clear progress but the `error` transition leaves it
unchanged; a progress event received outside `downloading` still changes
the rendered output (the pulsing border tracks `progress` alone), while
the in-button speed/percent readout is only rendered in the
`downloading` state. -/
theorem progress_lifecycle (cfg : Bool) (s : ButtonState)
    (p : DownloadProgress) (v : String) :
    (handleProgress s p).progress = some p ∧
    (handleStatus cfg s .checking).progress = none ∧
    (handleStatus cfg s (.downloading v)).progress = none ∧
    (handleStatus cfg s .launched).progress = none ∧
    (handleStatus cfg s .error).progress = s.progress ∧
    (s.state ≠ .downloading →
      renderProgress (handleProgress s p) =
        { showsBorder := true, downloadReadout := none }) ∧
    (s.state ≠ .downloading → (renderProgress s).downloadReadout = none) := by
  refine ⟨rfl, rfl, rfl, rfl, rfl, ?_, ?_⟩
  · intro h
    simp [renderProgress, handleProgress, h]
  · intro h
    simp [renderProgress, h]

/-- Witness for `progress_lifecycle` at a concrete non-downloading state. -/
theorem progress_lifecycle_witness :
    initStopped.state ≠ ProxyState.downloading ∧
    ((handleProgress initStopped sampleProgress).progress =
        some sampleProgress ∧
      (handleStatus true initStopped .checking).progress = none ∧
      (handleStatus true initStopped (.downloading "2.0")).progress = none ∧
      (handleStatus true initStopped .launched).progress = none ∧
      (handleStatus true initStopped .error).progress = initStopped.progress ∧
      (initStopped.state ≠ .downloading →
        renderProgress (handleProgress initStopped sampleProgress) =
          { showsBorder := true, downloadReadout := none }) ∧
      (initStopped.state ≠ .downloading →
        (renderProgress initStopped).downloadReadout = none)) :=
  ⟨by decide, progress_lifecycle true initStopped sampleProgress "2.0"⟩

/-- C2 counterexample: when `stop_proxy` throws, the `catch` block of
`handle()` puts the view in the `error` state, not `stopped`. -/
theorem stop_flow_counterexample :
    (stopFinal initRunning .threw).state = ProxyState.error ∧
    (stopFinal initRunning .threw).state ≠ ProxyState.stopped := by
  decide

/-- C2 (amended): triggering stop while running immediately shows
`stopping`; when the `stop_proxy` call resolves successfully the view
shows `stopped` with `busy` and the status text cleared; when the call
throws, the view shows `error` with status text "Error" (the error is
only logged), not `stopped`. -/
theorem stop_flow (s : ButtonState) :
    (stopIntermediate s).state = .stopping ∧
    (stopFinal s .ok).state = .stopped ∧
    (stopFinal s .ok).busy = false ∧
    (stopFinal s .ok).statusText = none ∧
    (stopFinal s .threw).state = .error ∧
    (stopFinal s .threw).busy = false ∧
    (stopFinal s .threw).statusText = some "Error" :=
  ⟨rfl, rfl, rfl, rfl, rfl, rfl, rfl⟩

/-- C3: the displayed `ProxyState` after a sequence of `updater:status`
events is a pure, deterministic function of the initial displayed state
and the event sequence: two runs over the same events from states whose
displayed component agrees end with the same displayed state, whatever
the config flag, progress, busy flag or active tab. -/
theorem status_determinism (s1 s2 : ButtonState) (h : s1.state = s2.state)
    (cfg1 cfg2 : Bool) (events : List ProxyStatusEvent) :
    (runStatus cfg1 s1 events).state = (runStatus cfg2 s2 events).state := by
  simp [runStatus_state, h]

/-- Witness for `status_determinism` on a concrete replayed sequence. -/
theorem status_determinism_witness :
    initStopped.state = ProxyState.stopped ∧
    (runStatus true initStopped
        [.checking, .downloading "2.0", .launched]).state =
      (runStatus false { initStopped with activeTab := "logs" }
        [.checking, .downloading "2.0", .launched]).state :=
  ⟨rfl, status_determinism _ _ rfl true false _⟩

/-- C4: a `proxy-error` event opens the blocking dialog exactly when its
severity is `error` or `critical`; `info` and `warning` events leave the
component state untouched; and an opened dialog renders the event
`message` and `suggestion` fields verbatim. -/
theorem proxy_error_dialog (s : ButtonState) (e : ProxyError) :
    (s.proxyError = none →
      ((handleProxyErrorEvent s e).proxyError.isSome ↔
        e.severity = .error ∨ e.severity = .critical)) ∧
    (e.severity = .info ∨ e.severity = .warning →
      handleProxyErrorEvent s e = s) ∧
    ((e.severity = .error ∨ e.severity = .critical) →
      renderDialog (handleProxyErrorEvent s e).proxyError =
        some (e.message, e.suggestion)) := by
  refine ⟨?_, ?_, ?_⟩
  · intro hnone
    cases hsev : e.severity <;>
      simp [handleProxyErrorEvent, hsev, hnone, renderDialog]
  · rintro (hsev | hsev) <;> simp [handleProxyErrorEvent, hsev]
  · rintro (hsev | hsev) <;> simp [handleProxyErrorEvent, hsev, renderDialog]

/-- Witness for `proxy_error_dialog` on concrete critical and warning
events arriving at a dialog-free running view. -/
theorem proxy_error_dialog_witness :
    ((handleProxyErrorEvent initRunning sampleCritical).proxyError.isSome ↔
      sampleCritical.severity = .error ∨
        sampleCritical.severity = .critical) ∧
    handleProxyErrorEvent initRunning sampleWarning = initRunning ∧
    renderDialog (handleProxyErrorEvent initRunning sampleCritical).proxyError =
      some ("the proxy died", "restart it") :=
  ⟨(proxy_error_dialog initRunning sampleCritical).1 rfl,
   (proxy_error_dialog initRunning sampleWarning).2.1 (Or.inr rfl),
   (proxy_error_dialog initRunning sampleCritical).2.2 (Or.inr rfl)⟩

/-- C7: the mount-time poll maps every outcome of `get_proxy_status` to a
post-poll view state: `true` to `running`, `false` to `stopped`, and a
rejected call to `stopped`; no outcome yields `error`. -/
theorem mount_poll_total :
    mountPoll (.ok true) = .running ∧
    mountPoll (.ok false) = .stopped ∧
    (∀ e : Unit, mountPoll (.error e) = .stopped) ∧
    ∀ r : Except Unit Bool, mountPoll r ≠ .error := by
  refine ⟨rfl, rfl, fun e => rfl, ?_⟩
  rintro (e | b)
  · simp [mountPoll]
  · cases b <;> simp [mountPoll]

/-- The keys of the `Config` interface (`src/types/config.ts`). -/
inductive ConfigKey
  | minimizeToTray
  | autoUpdate
  | openLogsOnLaunch
  | reducedMotion
  | enableRpc
  | rpcAnonymizeProfile
  | rpcAnonymizeLocation
  | proxyPort
  | enableMsa
  deriving DecidableEq, Repr

/-- A primitive config value: the interface holds booleans plus the
numeric-as-string `proxyPort`. -/
inductive ConfigValue
  | boolVal (b : Bool)
  | strVal (s : String)
  deriving DecidableEq, Repr

/-- A config object as a flat mapping from keys to primitive values,
mirroring the TypeScript `Config` record; the spread
`{ ...prev, [key]: value }` becomes a pointwise function update. -/
def Config := ConfigKey → ConfigValue

/-- `defaultSettings` (`src/settings/defaults.ts`), restricted to the keys
of the `Config` interface. -/
def defaultSettings : Config
  | .minimizeToTray => .boolVal false
  | .autoUpdate => .boolVal true
  | .openLogsOnLaunch => .boolVal true
  | .reducedMotion => .boolVal false
  | .enableRpc => .boolVal true
  | .rpcAnonymizeProfile => .boolVal false
  | .rpcAnonymizeLocation => .boolVal false
  | .proxyPort => .strVal "25565"
  | .enableMsa => .boolVal false

/-- The two settings-view states produced by one run of `updateSetting`
(settings-tab.tsx, lines 46-62): the optimistic local state installed
before `configApi.setValue` resolves, and the state after the call
settles. -/
structure UpdateRun where
  optimistic : Config
  final : Config

/-- `updateSetting` of the settings tab: it snapshots the closure-captured
`config`, installs `{ ...prev, [key]: value }` optimistically, awaits the
remote `set_config_key`, and on failure restores the snapshot
(`setConfig(config)`). -/
def updateSetting (config : Config) (key : ConfigKey) (value : ConfigValue)
    (writeOutcome : CallOutcome) : UpdateRun :=
  let optimistic : Config := fun k => if k = key then value else config k
  { optimistic := optimistic
    final :=
      match writeOutcome with
      | .ok => optimistic
      | .threw => config }

/-- C5: settings writes are atomic with respect to failure: for every
cached config state and single-key write whose remote `set_config_key`
call fails, the state after the rollback is exactly the state before the
optimistic update (while the optimistic state really did change the
written key). -/
theorem settings_rollback (config : Config) (key : ConfigKey)
    (value : ConfigValue) :
    (updateSetting config key value .threw).final = config ∧
    (updateSetting config key value .threw).optimistic key = value :=
  ⟨rfl, by simp [updateSetting]⟩

/-- The options record of `config.get` in `src/lib/config.ts`: an optional
object with an optional `initIfMissing` boolean. -/
structure GetOptions where
  initIfMissing : Option Bool
  deriving DecidableEq, Repr

/-- One run of `config.get`: the returned config, and the config passed to
`save_config` when that command was invoked. -/
structure GetRun where
  result : Config
  saved : Option Config

/-- `config.get` (`src/lib/config.ts`): awaits `get_config`; a non-null
result is returned as-is; on `null`, unless `options?.initIfMissing` is
exactly `false`, it first invokes `save_config` with the hard-coded
`defaultSettings`, then returns the defaults. -/
def configGet (backend : Option Config) (options : Option GetOptions) :
    GetRun :=
  match backend with
  | some cfg => { result := cfg, saved := none }
  | none =>
      if (options.bind fun o => o.initIfMissing) = some false then
        { result := defaultSettings, saved := none }
      else
        { result := defaultSettings, saved := some defaultSettings }

/-- C10: `config.get` is not a pure read: whenever the backend command
`get_config` returns null and `initIfMissing` is not explicitly `false`
(in particular when no options are passed), it invokes `save_config` with
the hard-coded defaults before returning them; with
`initIfMissing: false` the backend is left unchanged, and a non-null
backend config is returned without any write. -/
theorem config_get_effects (cfg : Config) (opts : Option GetOptions) :
    configGet (some cfg) opts = { result := cfg, saved := none } ∧
    configGet none none =
      { result := defaultSettings, saved := some defaultSettings } ∧
    ((opts.bind fun o => o.initIfMissing) ≠ some false →
      configGet none opts =
        { result := defaultSettings, saved := some defaultSettings }) ∧
    configGet none (some { initIfMissing := some false }) =
      { result := defaultSettings, saved := none } := by
  refine ⟨rfl, rfl, ?_, rfl⟩
  intro h
  simp [configGet, h]

/-- Witness for `config_get_effects` with `initIfMissing: true`. -/
theorem config_get_effects_witness :
    ((some { initIfMissing := some true } : Option GetOptions).bind
        fun o => o.initIfMissing) ≠ some false ∧
    configGet none (some { initIfMissing := some true }) =
      { result := defaultSettings, saved := some defaultSettings } :=
  ⟨by simp, (config_get_effects defaultSettings
      (some { initIfMissing := some true })).2.2.1 (by simp)⟩

/-- The onboarding `Step` union (`src/components/onboarding.tsx`):
`welcome`, `token`, `import` (present in the type but unreachable, since
its panel is commented out), `theme`, `done`; plus a terminal
`finished` pseudo-step standing for the `onFinish()` call that closes
the flow. -/
inductive Step
  | welcome
  | token
  | importStep
  | theme
  | done
  | finished
  deriving DecidableEq, Repr

/-- The transition triggers of the onboarding flow: `welcomeAdvance` is
`onWelcome` (3-second timer at the welcome step, or a click on the title),
whose target depends on `hasValidToken && !loading`; `verifySuccess` is a
successful `verify_token` at the token step; `themeContinue` is the
Continue button at the theme step; `doneTimer` is the 3-second timer at
the done step calling `onFinish`. -/
inductive OnboardingEvent
  | welcomeAdvance (tokenValid : Bool)
  | verifySuccess
  | themeContinue
  | doneTimer
  deriving DecidableEq, Repr

/-- The step transitions of `Onboarding`: each trigger fires only in the
step where its timer or control exists (the welcome timer is cleared on
leaving `welcome`, the verify input renders only at `token`, and so on);
`none` means the trigger cannot fire in that step. -/
def onboardingStep : Step → OnboardingEvent → Option Step
  | .welcome, .welcomeAdvance tokenValid =>
      some (if tokenValid then .theme else .token)
  | .token, .verifySuccess => some .theme
  | .theme, .themeContinue => some Step.done
  | .done, .doneTimer => some .finished
  | _, _ => none

/-- The order of the onboarding steps, following the flow
welcome → token → (import) → theme → done → finished. -/
def stepRank : Step → Nat
  | .welcome => 0
  | .token => 1
  | .importStep => 2
  | .theme => 3
  | .done => 4
  | .finished => 5

/-- C8: the onboarding flow is strictly forward: every transition the
component performs moves to a strictly later step in the order
welcome < token < theme < done < finished; no reachable transition moves
backward. -/
theorem onboarding_forward (s : Step) (e : OnboardingEvent) (t : Step)
    (h : onboardingStep s e = some t) : stepRank s < stepRank t := by
  cases s <;> cases e <;> simp [onboardingStep] at h
  all_goals first
    | (subst h; decide)
    | (rename_i b; cases b <;> simp at h <;> subst h <;> decide)

/-- Witness for `onboarding_forward`: the welcome timer with no stored
token advances to the token step, which is strictly later. -/
theorem onboarding_forward_witness :
    onboardingStep .welcome (.welcomeAdvance false) = some .token ∧
    stepRank .welcome < stepRank .token :=
  ⟨rfl, onboarding_forward .welcome (.welcomeAdvance false) .token rfl⟩

/-- After the `ESC [` opener of the ANSI regex `/\x1B\[[0-9;]*m/`: consume
digits and semicolons until an `m`; return the remainder after the `m`, or
`none` when the characters do not complete a match. -/
def stripAnsiBody : List Char → Option (List Char)
  | [] => none
  | c :: rest =>
      if c = 'm' then some rest
      else if c.isDigit ∨ c = ';' then stripAnsiBody rest
      else none

theorem stripAnsiBody_length :
    ∀ {l r : List Char}, stripAnsiBody l = some r → r.length < l.length := by
  intro l
  induction l with
  | nil => intro r h; simp [stripAnsiBody] at h
  | cons c rest ih =>
      intro r h
      by_cases hm : c = 'm'
      · simp [stripAnsiBody, hm] at h
        subst h
        exact Nat.lt_succ_self _
      · by_cases hd : c.isDigit ∨ c = ';'
        · simp [stripAnsiBody, hm, hd] at h
          exact Nat.lt_succ_of_lt (ih h)
        · simp [stripAnsiBody, hm, hd] at h

/-- Attempt to match a full ANSI escape `ESC [ [0-9;]* m` given the
characters following the `ESC`; returns the remainder after the match. -/
def ansiSuffix : List Char → Option (List Char)
  | [] => none
  | c :: rest => if c = '[' then stripAnsiBody rest else none

theorem ansiSuffix_length :
    ∀ {l r : List Char}, ansiSuffix l = some r → r.length < l.length := by
  intro l r h
  match l with
  | [] => simp [ansiSuffix] at h
  | c :: rest =>
      by_cases hc : c = '['
      · rw [ansiSuffix, if_pos hc] at h
        exact Nat.lt_succ_of_lt (stripAnsiBody_length h)
      · rw [ansiSuffix, if_neg hc] at h
        exact absurd h (by simp)

/-- The `strip` helper of the logs view (part_009, line 78):
`text.replace(/\x1B\[[0-9;]*m/g, "")` — remove every non-overlapping ANSI
color escape scanning left to right; an `ESC` that does not open a
complete escape is kept, and scanning resumes at the following
character. -/
def stripAnsiChars : List Char → List Char
  | [] => []
  | c :: rest =>
      if c = '\x1b' then
        match h : ansiSuffix rest with
        | some rest2 => stripAnsiChars rest2
        | none => c :: stripAnsiChars rest
      else c :: stripAnsiChars rest
termination_by l => l.length
decreasing_by
  · exact Nat.lt_succ_of_lt (ansiSuffix_length h)
  · exact Nat.lt_succ_self _
  · exact Nat.lt_succ_self _

/-- String form of the `strip` helper. -/
def stripAnsi (s : String) : String := String.mk (stripAnsiChars s.data)

/-- The alternatives of the level regex of `getLogLevel`
(`src/lib/proxy-logs.ts`, line 38): `/\[(DEBUG|INFO|WARN|WARNING|ERROR)\]/i`,
in the alternation order of the regex, left to right. -/
def logTags : List String := ["DEBUG", "INFO", "WARN", "WARNING", "ERROR"]

/-- Case-insensitive prefix match: when the text starts with the tag
(comparing uppercased characters), return the remaining text. -/
def startsWithCI : List Char → List Char → Option (List Char)
  | rest, [] => some rest
  | [], _ :: _ => none
  | c :: cs, t :: ts => if c.toUpper = t then startsWithCI cs ts else none

/-- Whether one regex alternative matches at the position right after a
`[`: the tag, case-insensitively, followed by the closing `]`. -/
def matchTagAt (cs : List Char) (tag : String) : Bool :=
  match startsWithCI cs tag.data with
  | some (']' :: _) => true
  | _ => false

/-- The first alternative, in the backtracking order of the regex, that
completes a bracketed tag right after a `[`. -/
def findTagAt (cs : List Char) : Option String :=
  logTags.find? (matchTagAt cs)

/-- The scan performed by `line.match(...)` in `getLogLevel`: try each
position left to right; at a `[`, when some alternative completes a
bracketed tag, the captured group uppercased — which is the tag itself —
is returned; otherwise the scan resumes right after the `[`. -/
def getLogLevelChars : List Char → Option String
  | [] => none
  | c :: rest =>
      if c = '[' then
        match findTagAt rest with
        | some t => some t
        | none => getLogLevelChars rest
      else getLogLevelChars rest

/-- `getLogLevel` (`src/lib/proxy-logs.ts`, lines 37-40).  The TypeScript
return type says `LogLevel | null`, but the value is the uppercased
captured group, which can also be `"WARNING"`. -/
def getLogLevel (s : String) : Option String := getLogLevelChars s.data

/-- The `filtered` memo of the logs view (part_009, lines 82-89): keep a
line when the ANSI-stripped text has no recognized level, or its level is
in the enabled set. -/
def filteredLogs (logs : List String) (enabledLevels : Finset String) :
    List String :=
  logs.filter fun line =>
    match getLogLevel (stripAnsi line) with
    | none => true
    | some level => decide (level ∈ enabledLevels)

theorem filter_idem {α : Type} (p : α → Bool) (l : List α) :
    (l.filter p).filter p = l.filter p := by
  induction l with
  | nil => rfl
  | cons a l ih =>
      by_cases h : p a
      · simp [List.filter_cons, h, ih]
      · simp [List.filter_cons, h, ih]

/-- C6: log filtering is a pure idempotent projection of the unmodified
buffer: filtering an already-filtered list by the same enabled-level set
yields the same lines; the filtered view is a sublist of the buffer, which
filtering never modifies; and toggling an enabled level off and back on
(set erase then insert) restores exactly the previously visible lines. -/
theorem log_filter_idempotent (logs : List String)
    (enabledLevels : Finset String) (level : String)
    (h : level ∈ enabledLevels) :
    filteredLogs (filteredLogs logs enabledLevels) enabledLevels =
      filteredLogs logs enabledLevels ∧
    (filteredLogs logs enabledLevels).Sublist logs ∧
    filteredLogs logs (insert level (enabledLevels.erase level)) =
      filteredLogs logs enabledLevels := by
  refine ⟨filter_idem _ _, List.filter_sublist _, ?_⟩
  rw [Finset.insert_erase h]

/-- Witness for `log_filter_idempotent` on a concrete buffer and level
set. -/
theorem log_filter_idempotent_witness :
    ("INFO" : String) ∈ ({"INFO", "WARN"} : Finset String) ∧
    (filteredLogs
        (filteredLogs ["[INFO] ready", "[DEBUG] noisy"] {"INFO", "WARN"})
        {"INFO", "WARN"} =
      filteredLogs ["[INFO] ready", "[DEBUG] noisy"] {"INFO", "WARN"} ∧
    (filteredLogs ["[INFO] ready", "[DEBUG] noisy"]
        {"INFO", "WARN"}).Sublist ["[INFO] ready", "[DEBUG] noisy"] ∧
    filteredLogs ["[INFO] ready", "[DEBUG] noisy"]
        (insert "INFO" (({"INFO", "WARN"} : Finset String).erase "INFO")) =
      filteredLogs ["[INFO] ready", "[DEBUG] noisy"] {"INFO", "WARN"}) :=
  ⟨by decide, log_filter_idempotent _ _ _ (by decide)⟩

/-- C9: the level checkboxes iterate over `LOG_LEVELS`
(`DEBUG`/`INFO`/`WARN`/`ERROR`), so every constructible enabled set is a
subset of those four; a line whose bracketed tag is `[WARNING]` is
classified to the level string `"WARNING"`, which is never a member of
such a set, so the line is excluded from the filtered view even when
`WARN` is enabled. -/
theorem warning_tag_excluded (S : Finset String)
    (hsub : S ⊆ {"DEBUG", "INFO", "WARN", "ERROR"}) (hwarn : "WARN" ∈ S) :
    "WARNING" ∉ S ∧
    (∀ rest : List Char,
      getLogLevelChars
          ('[' :: 'W' :: 'A' :: 'R' :: 'N' :: 'I' :: 'N' :: 'G' :: ']' ::
            rest) = some "WARNING") ∧
    ∀ (logs : List String) (line : String),
      getLogLevel (stripAnsi line) = some "WARNING" →
        line ∉ filteredLogs logs S := by
  have hnotin : "WARNING" ∉ S := fun hmem => absurd (hsub hmem) (by decide)
  refine ⟨hnotin, ?_, ?_⟩
  · intro rest
    rfl
  · intro logs line hlv hmem
    simp only [filteredLogs, List.mem_filter, hlv] at hmem
    exact hnotin (by simpa using hmem.2)

/-- Witness for `warning_tag_excluded` at the full checkbox set. -/
theorem warning_tag_excluded_witness :
    (({"DEBUG", "INFO", "WARN", "ERROR"} : Finset String) ⊆
        {"DEBUG", "INFO", "WARN", "ERROR"} ∧
      "WARN" ∈ ({"DEBUG", "INFO", "WARN", "ERROR"} : Finset String)) ∧
    "WARNING" ∉ ({"DEBUG", "INFO", "WARN", "ERROR"} : Finset String) :=
  ⟨⟨by decide, by decide⟩,
   (warning_tag_excluded _ (by decide) (by decide)).1⟩

end Launcher
